import Mathlib

/-!
Shallow embedding of the Goal & Contribution Planning Engine implemented by
`GoalInvestmentStrategyAgent` in
`src/backend/src/agents/goal_investment_strategy_agent.py`.

Python floats are modelled as real numbers, Python dicts holding goal / asset
records as structures, and the mutable agent instance as an explicit state
value threaded through the operations.  Fallible operations return a result
value carrying either the structured ERROR payload or the SUCCESS payload,
paired with the post-call state.  Human-readable report strings built from
interpolated numbers are not reproduced (no claim concerns their text); the
structured fields that the claims mention are kept.
-/

namespace GoalEngine

/-- One entry of the asset catalog `GoalInvestmentStrategyAgent.ASSETS`
(source lines 20-89).  The two `*_existing_options` lists are populated per
session from holdings data; the other fields are static reference data. -/
structure AssetOption where
  asset_class : String
  asset_subtype : String
  default_options : List String
  male_existing_options : List String
  female_existing_options : List String
  expected_cagr : ℝ
  risk_rating : ℕ

/-- One per-contributor allocation record inside a goal: the dicts
`{"asset_name": ..., "amount": ...}` appended in `create_goal` and in the
bootstrap routine. -/
structure AllocationLine where
  asset_name : String
  amount : ℝ

/-- A goal record as stored in `self.goals` (see `create_goal`, lines 370-380,
and `create_initial_goals`). -/
structure Goal where
  name : String
  target_amount : ℝ
  male_assets : List AllocationLine
  female_assets : List AllocationLine
  current_corpus : ℝ
  male_monthly_contribution : ℝ
  female_monthly_contribution : ℝ
  total_monthly_contribution : ℝ
  pledged : Bool

/-- The dict assigned to `self.final_discussion` at source lines 940-945.
The only assignment site always stores all four keys, so it is modelled as a
record. -/
structure StagedDiscussion where
  name : String
  male_monthly_contribution : ℝ
  female_monthly_contribution : ℝ
  asset_ladder : List (String × String × ℝ)

/-- The mutable per-session attributes of a `GoalInvestmentStrategyAgent`
instance.  `male_monthly_contribution` / `female_monthly_contribution` are the
remaining-capacity trackers of the contribution pool (initialised to each
contributor's surplus and decremented as goals are pledged, source lines
104-128).  `final_discussion = none` models the Python attribute never having
been assigned: reading it in that state raises `AttributeError`. -/
structure AgentState where
  goals : List Goal
  male_monthly_contribution : ℝ
  female_monthly_contribution : ℝ
  total_monthly_contribution : ℝ
  assets : List AssetOption
  final_discussion : Option StagedDiscussion

/-- The class-level `ASSETS` table (source lines 20-89), before any
held-instrument annotation. -/
noncomputable def defaultAssets : List AssetOption :=
  [ ⟨"Mutual Fund", "Small Cap", ["Axis Small Cap Fund - Direct Plan - Growth"], [], [], 18.5, 5⟩,
    ⟨"Mutual Fund", "Mid Cap", ["Kotak Emerging Equity Fund - Direct Plan - Growth"], [], [], 15.2, 4⟩,
    ⟨"Mutual Fund", "Large Cap",
      ["ICICI Prudential Bluechip Fund - Direct - Growth",
       "Nippon India Large Cap Fund - Direct - Growth"], [], [], 12.9, 3⟩,
    ⟨"Fixed Deposit", "N/A", ["HDFC Bank 5-Year FD"], [], [], 7.0, 1⟩,
    ⟨"Savings Account", "N/A", ["SBI Regular Savings Account"], [], [], 3.5, 1⟩,
    ⟨"ETF", "N/A", ["Motilal Oswal Nasdaq 100 ETF", "Nifty 50 ETF"], [], [], 12.5, 4⟩ ]

/-- Result of the Timeline Solver `get_num_of_months_to_reach_goal`:
either `{"status": "SUCCESS", "months_needed": m}` or
`{"status": "ERROR", "message": msg}`. -/
inductive CalcResult where
  | success (months_needed : ℝ)
  | error (message : String)

/-- True exactly on the `{"status": "ERROR"}` results. -/
def CalcResult.isError : CalcResult → Bool
  | .success _ => false
  | .error _ => true

/-- The Timeline Solver, source lines 454-505.  The `try`/`except` around
`math.log` is modelled by the explicit test that `math.log` would raise
`ValueError` (argument not positive) or that `math.log(1 + monthly_rate)` is
zero (`ZeroDivisionError`); `months_needed <= 0` is checked in each branch,
mirroring the single check at line 499 that follows both branches. -/
noncomputable def get_num_of_months_to_reach_goal
    (monthly_investment target_amount annual_return_rate current_corpus : ℝ) : CalcResult :=
  if monthly_investment ≤ 0 then .error "Monthly investment must be positive."
  else if target_amount ≤ 0 then .error "Target amount must be positive."
  else if annual_return_rate < 0 then .error "Annual return rate cannot be negative."
  else if current_corpus < 0 then .error "Current corpus cannot be negative."
  else if current_corpus ≥ target_amount then .success 0
  else
    let monthly_rate := annual_return_rate / 12
    if monthly_rate = 0 then
      let months_needed := (target_amount - current_corpus) / monthly_investment
      if months_needed ≤ 0 then .error "Invalid calculation result."
      else .success months_needed
    else
      let numerator := target_amount * monthly_rate + monthly_investment
      let denominator := current_corpus * monthly_rate + monthly_investment
      if denominator ≤ 0 then .error "Mathematical error in calculation."
      else if numerator / denominator ≤ 0 ∨ Real.log (1 + monthly_rate) = 0 then
        .error "Mathematical error in calculation."
      else
        let months_needed := Real.log (numerator / denominator) / Real.log (1 + monthly_rate)
        if months_needed ≤ 0 then .error "Invalid calculation result."
        else .success months_needed

/-- `get_expected_cagr` (source lines 703-718): the first catalog entry whose
`(asset_class, asset_subtype)` pair matches, else `None`. -/
noncomputable def get_expected_cagr (assets : List AssetOption)
    (asset_class asset_subtype : String) : Option ℝ :=
  match assets with
  | [] => none
  | a :: rest =>
      if a.asset_class = asset_class ∧ a.asset_subtype = asset_subtype then some a.expected_cagr
      else get_expected_cagr rest asset_class asset_subtype

/-- One entry of the `allocation_details` list built by
`calculate_weighted_portfolio_return` (source lines 764-770). -/
structure AllocationDetail where
  asset_class : String
  asset_subtype : String
  allocation_percentage : ℝ
  expected_cagr : ℝ
  weighted_contribution : ℝ

/-- Result of `calculate_weighted_portfolio_return`: the ERROR dict or the
SUCCESS dict of source lines 779-784 (`total_allocation` kept as the raw sum,
before the `* 100` display scaling). -/
inductive PortfolioResult where
  | perror (message : String)
  | psuccess (portfolio_expected_cagr : ℝ) (total_allocation : ℝ)
      (allocation_details : List AllocationDetail)

/-- True exactly on the `{"status": "ERROR"}` results. -/
def PortfolioResult.isError : PortfolioResult → Bool
  | .perror _ => true
  | .psuccess _ _ _ => false

/-- The CAGR payload of a success result, if any. -/
noncomputable def PortfolioResult.cagrOf : PortfolioResult → Option ℝ
  | .perror _ => none
  | .psuccess c _ _ => some c

/-- The loop of `calculate_weighted_portfolio_return` (source lines 735-770):
running accumulators for `total_allocation`, `weighted_return` and
`allocation_details`, with an early ERROR return on a bad line.  The
`len(allocation) != 3` check cannot fire in the typed model (lines are always
triples); the interpolated values of the Python error messages are omitted. -/
noncomputable def weighted_return_loop (assets : List AssetOption) :
    List (String × String × ℝ) → ℝ → ℝ → List AllocationDetail →
    Except String (ℝ × ℝ × List AllocationDetail)
  | [], total_allocation, weighted_return, details =>
      .ok (total_allocation, weighted_return, details)
  | (asset_class, asset_subtype, percentage) :: rest,
      total_allocation, weighted_return, details =>
    if ¬(0 ≤ percentage ∧ percentage ≤ 1) then
      .error "Allocation percentage must be between 0 and 1"
    else
      match get_expected_cagr assets asset_class asset_subtype with
      | none => .error "Asset not found"
      | some expected_cagr =>
          weighted_return_loop assets rest (total_allocation + percentage)
            (weighted_return + percentage * expected_cagr)
            (details ++ [⟨asset_class, asset_subtype, percentage * 100, expected_cagr,
                          percentage * expected_cagr⟩])

/-- `calculate_weighted_portfolio_return` (source lines 721-784). -/
noncomputable def calculate_weighted_portfolio_return (assets : List AssetOption)
    (asset_ladder : List (String × String × ℝ)) : PortfolioResult :=
  match weighted_return_loop assets asset_ladder 0 0 [] with
  | .error m => .perror m
  | .ok (total_allocation, weighted_return, details) =>
      if 0.001 < |total_allocation - 1| then
        .perror "Total allocation must equal 100%"
      else
        .psuccess weighted_return total_allocation details

/-- Number of goals with `pledged` set (the `no_of_pledged` count of source
lines 855-861 before the `+= 1`). -/
def pledgedCount (goals : List Goal) : ℕ :=
  (goals.filter (fun g => g.pledged)).length

/-- `pledged_male_contribution` of source lines 855-861: the sum of the
pledged goals' male contributions. -/
noncomputable def pledgedMaleSum (goals : List Goal) : ℝ :=
  ((goals.filter (fun g => g.pledged)).map (fun g => g.male_monthly_contribution)).sum

/-- `pledged_female_contribution` of source lines 855-861. -/
noncomputable def pledgedFemaleSum (goals : List Goal) : ℝ :=
  ((goals.filter (fun g => g.pledged)).map (fun g => g.female_monthly_contribution)).sum

/-- Sum of the pledged goals' `total_monthly_contribution` fields. -/
noncomputable def pledgedTotalSum (goals : List Goal) : ℝ :=
  ((goals.filter (fun g => g.pledged)).map (fun g => g.total_monthly_contribution)).sum

/-- The mutation applied to each pledged goal by source lines 868-878: each
contribution field and each per-line asset amount divided by `n`
(`n = no_of_pledged` after the increment, i.e. `k+1`). -/
noncomputable def divideGoalBy (n : ℝ) (g : Goal) : Goal :=
  if g.pledged then
    { g with
      male_monthly_contribution := g.male_monthly_contribution / n
      female_monthly_contribution := g.female_monthly_contribution / n
      total_monthly_contribution := g.total_monthly_contribution / n
      male_assets := g.male_assets.map (fun a => { a with amount := a.amount / n })
      female_assets := g.female_assets.map (fun a => { a with amount := a.amount / n }) }
  else g

/-- The whole redistribution block of source lines 866-881, entered when both
remaining-capacity trackers are zero and at least one pledged goal exists:
every pledged goal is divided by `k+1` and the trackers are reset to the old
pledged contribution sums divided by `k+1`. -/
noncomputable def redistribute (s : AgentState) : AgentState :=
  let n : ℝ := (pledgedCount s.goals : ℝ) + 1
  { s with
    goals := s.goals.map (divideGoalBy n)
    male_monthly_contribution := pledgedMaleSum s.goals / n
    female_monthly_contribution := pledgedFemaleSum s.goals / n }

/-- Result of `calculate_months_to_reach_goal_with_asset_ladder`: the ERROR
dict, the `goal_already_achieved` SUCCESS dict (source lines 892-900), or the
main SUCCESS dict (source lines 947-977).  Of the latter only the fields some
claim mentions are carried (raw `months_needed` before the `round(..., 1)`
display rounding, the portfolio CAGR and the contribution breakdown); the
purely presentational fields (years split, invested/returns totals, formatted
currency strings) are omitted. -/
inductive LadderResult where
  | error (message : String)
  | already_achieved
  | success (months_needed : ℝ) (portfolio_expected_cagr : ℝ)
      (male_monthly_contribution : ℝ) (female_monthly_contribution : ℝ)
      (total_monthly_contribution : ℝ)

/-- True exactly on the `{"status": "ERROR"}` results. -/
def LadderResult.isError : LadderResult → Bool
  | .error _ => true
  | .already_achieved => false
  | .success _ _ _ _ _ => false

/-- Source lines 883-977: the part of
`calculate_months_to_reach_goal_with_asset_ladder` that runs after the
redistribution block, on the (possibly just-redistributed) state `s`.
`starting_corpus` is the literal `0` of line 848, so the corpus guards of
lines 888-900 are kept with `0` substituted.  As in
`get_num_of_months_to_reach_goal`, the `try`/`except` around `math.log` is
modelled by the explicit failure tests, and the `months_needed <= 0` check of
line 929 is mirrored in each arithmetic branch. -/
noncomputable def ladder_timeline_core (s : AgentState) (goal_name : String)
    (asset_ladder : List (String × String × ℝ)) (target_amount : ℝ) :
    LadderResult × AgentState :=
  let total_monthly_contribution :=
    s.male_monthly_contribution + s.female_monthly_contribution
  if total_monthly_contribution ≤ 0 then
    (.error "Total monthly contribution must be positive.", s)
  else if (0 : ℝ) < 0 then (.error "Starting corpus cannot be negative.", s)
  else if (0 : ℝ) ≥ target_amount then (.already_achieved, s)
  else
    match calculate_weighted_portfolio_return s.assets asset_ladder with
    | .perror m => (.error m, s)
    | .psuccess portfolio_cagr _ _ =>
      let annual_return_rate := portfolio_cagr / 100
      let monthly_rate := annual_return_rate / 12
      if monthly_rate = 0 then
        let months_needed := (target_amount - 0) / total_monthly_contribution
        if months_needed ≤ 0 then (.error "Invalid calculation result.", s)
        else
          (.success months_needed portfolio_cagr s.male_monthly_contribution
             s.female_monthly_contribution total_monthly_contribution,
           { s with
             final_discussion :=
               some ⟨goal_name, s.male_monthly_contribution,
                 s.female_monthly_contribution, asset_ladder⟩ })
      else
        let numerator := target_amount * monthly_rate + total_monthly_contribution
        let denominator := 0 * monthly_rate + total_monthly_contribution
        if denominator ≤ 0 then (.error "Mathematical error in calculation.", s)
        else if numerator / denominator ≤ 0 ∨ Real.log (1 + monthly_rate) = 0 then
          (.error "Mathematical error in calculation.", s)
        else
          let months_needed :=
            Real.log (numerator / denominator) / Real.log (1 + monthly_rate)
          if months_needed ≤ 0 then (.error "Invalid calculation result.", s)
          else
            (.success months_needed portfolio_cagr s.male_monthly_contribution
               s.female_monthly_contribution total_monthly_contribution,
             { s with
               final_discussion :=
                 some ⟨goal_name, s.male_monthly_contribution,
                   s.female_monthly_contribution, asset_ladder⟩ })

/-- `calculate_months_to_reach_goal_with_asset_ladder` (source lines 787-980):
the target guard, then the redistribution block of lines 853-881 (an ERROR
without mutation when no pledged goal exists, otherwise the in-place division
of every pledged goal and the tracker reset), then the timeline computation of
`ladder_timeline_core` on the resulting state. -/
noncomputable def calculate_months_to_reach_goal_with_asset_ladder
    (s : AgentState) (goal_name : String)
    (asset_ladder : List (String × String × ℝ)) (target_amount : ℝ) :
    LadderResult × AgentState :=
  if target_amount ≤ 0 then (.error "Target amount must be positive.", s)
  else if s.male_monthly_contribution = 0 ∧ s.female_monthly_contribution = 0 then
    if pledgedCount s.goals = 0 then
      (.error "You don't have any amount to invest", s)
    else
      ladder_timeline_core (redistribute s) goal_name asset_ladder target_amount
  else
    ladder_timeline_core s goal_name asset_ladder target_amount

/-- The allocation lines built by the loop of `create_goal` (source lines
351-368) for one contributor: for each ladder line, every catalog product with
the matching `(asset_class, asset_subtype)` pair contributes one line, naming
the contributor's first existing option when one is held and the product's
first default option otherwise, with amount `contribution * percentage`.
`held` selects the contributor's existing-options list.  (The catalog keeps
the pair unique, so at most one product matches per ladder line; a product
with an empty `default_options` list would make Python raise `IndexError`,
which no catalog entry has, so `headD ""` stands in for `[0]`.) -/
noncomputable def contributorAllocationLines (assets : List AssetOption)
    (contribution : ℝ) (held : AssetOption → List String) :
    List (String × String × ℝ) → List AllocationLine
  | [] => []
  | (asset_class, asset_subtype, asset_percentage) :: rest =>
      ((assets.filter (fun p =>
          p.asset_class == asset_class && p.asset_subtype == asset_subtype)).map
        (fun p =>
          { asset_name :=
              match held p with
              | [] => p.default_options.headD ""
              | o :: _ => o
            amount := contribution * asset_percentage }))
      ++ contributorAllocationLines assets contribution held rest

/-- Outcome of `create_goal`: either the Python call raises `AttributeError`
(`self.final_discussion` was never assigned — `__init__` does not initialise
it), or a string is returned.  The guard at source lines 347-348 (`not
self.final_discussion or 'asset_ladder' not in self.final_discussion`) can
never fire once the attribute exists, because the only assignment always
stores a non-empty dict containing `'asset_ladder'`; so the reachable string
return is the success summary.  Its interpolated text is not reproduced. -/
inductive CreateGoalResult where
  | attributeError
  | created

/-- `create_goal` (source lines 317-389): reads `self.final_discussion`
(raising when it was never set), builds both contributors' allocation lines,
appends the new pledged goal with `current_corpus = 0`, decrements the three
contribution trackers by the staged contributions, and saves the store. -/
noncomputable def create_goal (s : AgentState) (target_amount : ℝ) :
    CreateGoalResult × AgentState :=
  match s.final_discussion with
  | none => (.attributeError, s)
  | some fd =>
      let male_assets :=
        contributorAllocationLines s.assets fd.male_monthly_contribution
          (fun p => p.male_existing_options) fd.asset_ladder
      let female_assets :=
        contributorAllocationLines s.assets fd.female_monthly_contribution
          (fun p => p.female_existing_options) fd.asset_ladder
      let goali : Goal :=
        { name := fd.name
          target_amount := target_amount
          male_assets := male_assets
          female_assets := female_assets
          current_corpus := 0
          male_monthly_contribution := fd.male_monthly_contribution
          female_monthly_contribution := fd.female_monthly_contribution
          total_monthly_contribution :=
            fd.male_monthly_contribution + fd.female_monthly_contribution
          pledged := true }
      (.created,
       { s with
         goals := s.goals ++ [goali]
         male_monthly_contribution :=
           s.male_monthly_contribution - fd.male_monthly_contribution
         female_monthly_contribution :=
           s.female_monthly_contribution - fd.female_monthly_contribution
         total_monthly_contribution :=
           s.total_monthly_contribution -
             (fd.male_monthly_contribution + fd.female_monthly_contribution) })

/-- Phase-1 corpus of the temporary branch of
`calculate_goal_impact_with_contribution_change` (source lines 601-613): the
corpus grown for `time_period_months` months, plus the modified contributions
when they are positive (annuity accumulation for a positive monthly rate,
linear accumulation otherwise). -/
noncomputable def corpus_after_temp_period (current_corpus temp_total_contribution
    monthly_rate : ℝ) (time_period_months : ℕ) : ℝ :=
  if temp_total_contribution ≤ 0 then
    current_corpus * (1 + monthly_rate) ^ time_period_months
  else if 0 < monthly_rate then
    current_corpus * (1 + monthly_rate) ^ time_period_months +
      temp_total_contribution *
        (((1 + monthly_rate) ^ time_period_months - 1) / monthly_rate)
  else
    current_corpus * (1 + monthly_rate) ^ time_period_months +
      temp_total_contribution * (time_period_months : ℝ)

/-- The per-goal `new_months` computation of the temporary-change branch of
`calculate_goal_impact_with_contribution_change` (source lines 592-629, one
iteration of the loop with `time_period_months` not `None`): the affected
contributor's contribution is scaled by `(1 + contribution_percentage_change)`,
phase 1 accumulates `corpus_after_temp_period`, and if the goal is not reached
within the period, phase 2 reruns the Timeline Solver from that corpus with
the goal's original `total_monthly_contribution`.  Returns the computed
`new_months` or the propagated solver error (the "Error in remaining
calculation" line of source line 626). -/
noncomputable def impact_new_months_temporary (g : Goal)
    (contribution_percentage_change : ℝ) (gender : String)
    (time_period_months : ℕ) (annual_return_rate : ℝ) : CalcResult :=
  let monthly_rate := annual_return_rate / 12
  let temp_total_contribution :=
    if gender = "male" then
      g.male_monthly_contribution * (1 + contribution_percentage_change) +
        g.female_monthly_contribution
    else
      g.male_monthly_contribution +
        g.female_monthly_contribution * (1 + contribution_percentage_change)
  let corpus := corpus_after_temp_period g.current_corpus temp_total_contribution
    monthly_rate time_period_months
  if corpus ≥ g.target_amount then .success (time_period_months : ℝ)
  else
    match get_num_of_months_to_reach_goal g.total_monthly_contribution
        g.target_amount annual_return_rate corpus with
    | .success m => .success ((time_period_months : ℝ) + m)
    | .error e => .error e

/-! ### Concrete session states used by witnesses and counterexamples -/

/-- A pledged goal taking a 1 + 1 monthly contribution, with one allocation
line per contributor. -/
noncomputable def gEx (nm : String) : Goal :=
  { name := nm
    target_amount := 500
    male_assets := [⟨"SBI Regular Savings Account", 1⟩]
    female_assets := [⟨"SBI Regular Savings Account", 1⟩]
    current_corpus := 0
    male_monthly_contribution := 1
    female_monthly_contribution := 1
    total_monthly_contribution := 2
    pledged := true }

/-- Session with one pledged goal consuming the whole pool (both trackers 0). -/
noncomputable def exStateOne : AgentState :=
  { goals := [gEx "Goal A"]
    male_monthly_contribution := 0
    female_monthly_contribution := 0
    total_monthly_contribution := 0
    assets := defaultAssets
    final_discussion := none }

/-- Session with two pledged goals consuming the whole pool. -/
noncomputable def exStateTwo : AgentState :=
  { goals := [gEx "Goal A", gEx "Goal B"]
    male_monthly_contribution := 0
    female_monthly_contribution := 0
    total_monthly_contribution := 0
    assets := defaultAssets
    final_discussion := none }

/-- A fresh session in which no proposal has been made:
`final_discussion` was never assigned. -/
noncomputable def freshState : AgentState :=
  { goals := [gEx "Goal A"]
    male_monthly_contribution := 5
    female_monthly_contribution := 7
    total_monthly_contribution := 12
    assets := defaultAssets
    final_discussion := none }

/-- A session holding a staged discussion, ready to commit. -/
noncomputable def stagedState : AgentState :=
  { goals := []
    male_monthly_contribution := 3
    female_monthly_contribution := 2
    total_monthly_contribution := 5
    assets := defaultAssets
    final_discussion := some ⟨"Vacation", 3, 2, [("Savings Account", "N/A", 1)]⟩ }

/-- A goal whose corpus already exceeds its target. -/
noncomputable def gReached : Goal :=
  { name := "Reached"
    target_amount := 50
    male_assets := []
    female_assets := []
    current_corpus := 100
    male_monthly_contribution := 1
    female_monthly_contribution := 1
    total_monthly_contribution := 2
    pledged := true }

/-- The all-savings asset ladder of the agent's recommended first call. -/
noncomputable def savingsLadder : List (String × String × ℝ) :=
  [("Savings Account", "N/A", 1)]

/-- A ladder whose `(class, subtype)` pair is not in the catalog. -/
noncomputable def unknownLadder : List (String × String × ℝ) :=
  [("Gold", "N/A", 1)]

/-- Validity of one ladder line for the blender loop: percentage within
`[0, 1]` and catalog lookup succeeding (the two per-line ERROR causes). -/
def lineOk (assets : List AssetOption) (line : String × String × ℝ) : Prop :=
  (0 ≤ line.2.2 ∧ line.2.2 ≤ 1) ∧ get_expected_cagr assets line.1 line.2.1 ≠ none

/-- Sum of a ladder's percentages (the final `total_allocation`). -/
noncomputable def ladderPctSum (l : List (String × String × ℝ)) : ℝ :=
  (l.map (fun x => x.2.2)).sum

/-- Sum of a ladder's percentage-weighted catalog CAGRs (the final
`weighted_return`). -/
noncomputable def ladderWeightedSum (assets : List AssetOption)
    (l : List (String × String × ℝ)) : ℝ :=
  (l.map (fun x => x.2.2 * ((get_expected_cagr assets x.1 x.2.1).getD 0))).sum

/-! ### Theorems -/

/-- C2: in a session with no prior proposal (`final_discussion` never
assigned), `create_goal` does not return the structured
`NoStagedDiscussionError` result: the attribute access raises
`AttributeError`, a raw exception crossing the operation boundary.  The state
(goal store, pool trackers — and hence the persisted file, which is only
written later in the call) is left unchanged. -/
theorem create_goal_without_proposal_raises :
    create_goal freshState 500000 = (CreateGoalResult.attributeError, freshState) := rfl

/-- C3 (amended): a successful commit does NOT clear the staged discussion —
`create_goal` never writes `final_discussion`, so after the commit the session
still holds the discussion that was just committed. -/
theorem create_goal_retains_staged_discussion (s : AgentState)
    (fd : StagedDiscussion) (t : ℝ) (h : s.final_discussion = some fd) :
    (create_goal s t).1 = CreateGoalResult.created ∧
      ((create_goal s t).2).final_discussion = some fd := by
  unfold create_goal
  rw [h]
  exact ⟨rfl, rfl⟩

/-- C3 witness: the state holding the staged "Vacation" discussion commits
successfully and still holds it afterwards. -/
theorem create_goal_retains_staged_discussion_witness :
    stagedState.final_discussion =
      some ⟨"Vacation", 3, 2, [("Savings Account", "N/A", 1)]⟩ ∧
    ((create_goal stagedState 100).1 = CreateGoalResult.created ∧
      ((create_goal stagedState 100).2).final_discussion =
        some ⟨"Vacation", 3, 2, [("Savings Account", "N/A", 1)]⟩) :=
  ⟨rfl, create_goal_retains_staged_discussion stagedState _ 100 rfl⟩

/-- C3 counterexample: a concrete successful commit (the result is the
created-summary return and the goal store grows by one) after which the
session still holds an active staged discussion, contradicting "the session
holds no active staged discussion until a new proposal is made". -/
theorem create_goal_discussion_not_cleared_example :
    (create_goal stagedState 100).1 = CreateGoalResult.created ∧
    (create_goal stagedState 100).2.goals.length = stagedState.goals.length + 1 ∧
    (create_goal stagedState 100).2.final_discussion ≠ none := by
  refine ⟨rfl, rfl, ?_⟩
  intro h
  simp only [create_goal, stagedState] at h
  cases h

/-- C4: for positive contribution and target, non-negative rate and corpus,
the Timeline Solver returns 0 months when the corpus already meets the target,
`(target - corpus) / contribution` at rate zero, and otherwise the closed-form
`n = log((target*r + PMT)/(corpus*r + PMT)) / log(1+r)` with `r = rate/12`,
returning the `CalculationError` result exactly when the denominator inside
the logarithm is non-positive or the resulting `n` is non-positive. -/
theorem timeline_solver_spec (mi ta rate c : ℝ)
    (hmi : 0 < mi) (hta : 0 < ta) (hrate : 0 ≤ rate) (hc : 0 ≤ c) :
    (ta ≤ c → get_num_of_months_to_reach_goal mi ta rate c = .success 0) ∧
    (c < ta → rate = 0 →
      get_num_of_months_to_reach_goal mi ta rate c = .success ((ta - c) / mi)) ∧
    (c < ta → 0 < rate →
      (((get_num_of_months_to_reach_goal mi ta rate c).isError = true) ↔
        (c * (rate / 12) + mi ≤ 0 ∨
          Real.log ((ta * (rate / 12) + mi) / (c * (rate / 12) + mi)) /
            Real.log (1 + rate / 12) ≤ 0)) ∧
      (0 < Real.log ((ta * (rate / 12) + mi) / (c * (rate / 12) + mi)) /
            Real.log (1 + rate / 12) →
        get_num_of_months_to_reach_goal mi ta rate c =
          .success (Real.log ((ta * (rate / 12) + mi) / (c * (rate / 12) + mi)) /
            Real.log (1 + rate / 12)))) := by
  have h1 : ¬ mi ≤ 0 := not_le.2 hmi
  have h2 : ¬ ta ≤ 0 := not_le.2 hta
  have h3 : ¬ rate < 0 := not_lt.2 hrate
  have h4 : ¬ c < 0 := not_lt.2 hc
  refine ⟨?_, ?_, ?_⟩
  · intro hle
    simp only [get_num_of_months_to_reach_goal]
    rw [if_neg h1, if_neg h2, if_neg h3, if_neg h4, if_pos hle]
  · intro hlt hr0
    subst hr0
    simp only [get_num_of_months_to_reach_goal]
    rw [if_neg h1, if_neg h2, if_neg h3, if_neg h4, if_neg (not_le.2 hlt),
      if_pos (by norm_num : (0:ℝ)/12 = 0),
      if_neg (not_le.2 (div_pos (by linarith) hmi))]
  · intro hlt hr
    have hr12 : 0 < rate / 12 := by positivity
    have hden : 0 < c * (rate / 12) + mi := by positivity
    have hnum : 0 < ta * (rate / 12) + mi := by positivity
    have hlog1r : 0 < Real.log (1 + rate / 12) := Real.log_pos (by linarith)
    have hval : ¬ ((ta * (rate / 12) + mi) / (c * (rate / 12) + mi) ≤ 0 ∨
        Real.log (1 + rate / 12) = 0) := by
      push_neg
      exact ⟨div_pos hnum hden, ne_of_gt hlog1r⟩
    simp only [get_num_of_months_to_reach_goal]
    rw [if_neg h1, if_neg h2, if_neg h3, if_neg h4, if_neg (not_le.2 hlt),
      if_neg (by positivity : rate / 12 ≠ 0), if_neg (not_le.2 hden), if_neg hval]
    constructor
    · constructor
      · intro herr
        by_cases hm : Real.log ((ta * (rate / 12) + mi) / (c * (rate / 12) + mi)) /
            Real.log (1 + rate / 12) ≤ 0
        · exact Or.inr hm
        · rw [if_neg hm] at herr
          exact absurd herr (by simp [CalcResult.isError])
      · intro hcase
        rcases hcase with hd | hm
        · exact absurd hd (not_le.2 hden)
        · rw [if_pos hm]
          rfl
    · intro hpos
      rw [if_neg (not_le.2 hpos)]

/-- C4 witness: at contribution 1, target 2, rate 0, corpus 0 the solver
returns `(2 - 0)/1` months. -/
theorem timeline_solver_spec_witness :
    (0:ℝ) < 1 ∧ (0:ℝ) < 2 ∧ (0:ℝ) ≤ 0 ∧
    get_num_of_months_to_reach_goal 1 2 0 0 = .success ((2 - 0) / 1) :=
  ⟨by norm_num, by norm_num, le_refl 0,
    (timeline_solver_spec 1 2 0 0 (by norm_num) (by norm_num) le_rfl le_rfl).2.1
      (by norm_num) rfl⟩

/-- Helper: a SUCCESS of the Timeline Solver implies the input guards passed
and pins the returned months to the branch formula. -/
theorem solver_success_elim {mi ta rate c m : ℝ}
    (h : get_num_of_months_to_reach_goal mi ta rate c = .success m) :
    0 < mi ∧ 0 < ta ∧ 0 ≤ rate ∧ 0 ≤ c ∧
      ((ta ≤ c ∧ m = 0) ∨
       (c < ta ∧ rate = 0 ∧ m = (ta - c) / mi) ∨
       (c < ta ∧ 0 < rate ∧ 0 < m ∧
         m = Real.log ((ta * (rate / 12) + mi) / (c * (rate / 12) + mi)) /
               Real.log (1 + rate / 12))) := by
  simp only [get_num_of_months_to_reach_goal] at h
  split_ifs at h with a1 a2 a3 a4 a5 a6 a7 a8 a9 a10 <;>
    simp only [CalcResult.success.injEq] at h
  · exact ⟨not_le.1 a1, not_le.1 a2, not_lt.1 a3, not_lt.1 a4,
      Or.inl ⟨a5, h.symm⟩⟩
  · refine ⟨not_le.1 a1, not_le.1 a2, not_lt.1 a3, not_lt.1 a4,
      Or.inr (Or.inl ⟨not_le.1 a5, ?_, h.symm⟩)⟩
    have h12 : (12:ℝ) ≠ 0 := by norm_num
    exact (div_eq_zero_iff.1 a6).resolve_right h12
  · have hr : 0 < rate := by
      rcases lt_trichotomy rate 0 with hlt | heq | hgt
      · exact absurd hlt a3
      · exact absurd (by rw [heq]; norm_num) a6
      · exact hgt
    exact ⟨not_le.1 a1, not_le.1 a2, not_lt.1 a3, not_lt.1 a4,
      Or.inr (Or.inr ⟨not_le.1 a5, hr, h ▸ not_le.1 a10, h.symm⟩)⟩

/-- C8 (amended): joint monotonicity of the Timeline Solver in contribution
and target — between two SUCCESS calls sharing the rate and corpus, a larger
(or equal) monthly contribution together with a smaller (or equal) target
amount never yields more months.  (Specialise `ta₁ = ta₂` for monotonicity in
the contribution, `mi₁ = mi₂` for monotonicity in the target.)  Monotonicity
in the rate does not hold; see the counterexample. -/
theorem solver_monotonic_contribution_target (mi₁ mi₂ ta₁ ta₂ rate c m₁ m₂ : ℝ)
    (h₁ : get_num_of_months_to_reach_goal mi₁ ta₁ rate c = .success m₁)
    (h₂ : get_num_of_months_to_reach_goal mi₂ ta₂ rate c = .success m₂)
    (hmi : mi₁ ≤ mi₂) (hta : ta₂ ≤ ta₁) : m₂ ≤ m₁ := by
  obtain ⟨hmi₁, hta₁, -, hc, d₁⟩ := solver_success_elim h₁
  obtain ⟨hmi₂, hta₂, -, -, d₂⟩ := solver_success_elim h₂
  have hm₁0 : 0 ≤ m₁ := by
    rcases d₁ with ⟨-, e⟩ | ⟨hlt, -, e⟩ | ⟨-, -, hp, -⟩
    · exact e ▸ le_rfl
    · exact e ▸ le_of_lt (div_pos (by linarith) hmi₁)
    · exact le_of_lt hp
  rcases d₂ with ⟨-, e₂⟩ | ⟨hlt₂, hr0, e₂⟩ | ⟨hlt₂, hrp, -, e₂⟩
  · exact e₂ ▸ hm₁0
  · rcases d₁ with ⟨hge₁, -⟩ | ⟨hlt₁, -, e₁⟩ | ⟨-, hrp₁, -, -⟩
    · linarith
    · rw [e₁, e₂]
      exact div_le_div₀ (by linarith) (by linarith) hmi₁ hmi
    · exact absurd hr0 (ne_of_gt hrp₁)
  · rcases d₁ with ⟨hge₁, -⟩ | ⟨-, hr0₁, -⟩ | ⟨hlt₁, -, -, e₁⟩
    · linarith
    · exact absurd hr0₁ (ne_of_gt hrp)
    · have hr12 : 0 < rate / 12 := by positivity
      have hden₁ : 0 < c * (rate / 12) + mi₁ := by positivity
      have hden₂ : 0 < c * (rate / 12) + mi₂ := by positivity
      have hnum₂ : 0 < ta₂ * (rate / 12) + mi₂ := by positivity
      have hlog1r : 0 < Real.log (1 + rate / 12) := Real.log_pos (by linarith)
      have hq : (ta₂ * (rate / 12) + mi₂) / (c * (rate / 12) + mi₂) ≤
          (ta₁ * (rate / 12) + mi₁) / (c * (rate / 12) + mi₁) := by
        rw [div_le_div_iff₀ hden₂ hden₁]
        have k₁ : 0 ≤ (ta₁ - ta₂) * mi₂ := mul_nonneg (by linarith) (le_of_lt hmi₂)
        have k₂ : 0 ≤ (mi₂ - mi₁) * (ta₂ - c) := mul_nonneg (by linarith) (by linarith)
        have k₃ : 0 ≤ c * (ta₁ - ta₂) := mul_nonneg hc (by linarith)
        nlinarith [mul_nonneg (le_of_lt hr12) k₁, mul_nonneg (le_of_lt hr12) k₂,
          mul_nonneg (mul_nonneg (le_of_lt hr12) (le_of_lt hr12)) k₃]
      have hlogq := Real.log_le_log (div_pos hnum₂ hden₂) hq
      rw [e₁, e₂]
      exact (div_le_div_iff_of_pos_right hlog1r).2 hlogq

/-- Helper: the solver at contribution 1, target 2, rate 0, corpus 0. -/
theorem solver_eval_simple : get_num_of_months_to_reach_goal 1 2 0 0 = .success 2 := by
  simp only [get_num_of_months_to_reach_goal]
  norm_num

/-- C8 witness: two equal SUCCESS calls, so the months bound is an equality. -/
theorem solver_monotonic_contribution_target_witness :
    get_num_of_months_to_reach_goal 1 2 0 0 = CalcResult.success 2 ∧ (2:ℝ) ≤ 2 :=
  ⟨solver_eval_simple,
    solver_monotonic_contribution_target 1 1 2 2 0 0 2 2
      solver_eval_simple solver_eval_simple le_rfl le_rfl⟩

/-- Helper: the solver at contribution 2, target 1, annual rate 12, corpus 0
(monthly rate 1). -/
theorem solver_eval_rate12 :
    get_num_of_months_to_reach_goal 2 1 12 0 =
      .success (Real.log (3/2) / Real.log 2) := by
  have l2 : (0:ℝ) < Real.log 2 := Real.log_pos (by norm_num)
  have l32 : (0:ℝ) < Real.log (3/2) := Real.log_pos (by norm_num)
  simp only [get_num_of_months_to_reach_goal]
  rw [if_neg (by norm_num : ¬ (2:ℝ) ≤ 0), if_neg (by norm_num : ¬ (1:ℝ) ≤ 0),
    if_neg (by norm_num : ¬ (12:ℝ) < 0), if_neg (by norm_num : ¬ (0:ℝ) < 0),
    if_neg (by norm_num : ¬ (0:ℝ) ≥ 1), if_neg (by norm_num : ¬ (12:ℝ)/12 = 0)]
  norm_num
  exact fun h => absurd h (not_le.2 (div_pos l32 l2))

/-- Helper: the solver at contribution 2, target 1, annual rate 36, corpus 0
(monthly rate 3). -/
theorem solver_eval_rate36 :
    get_num_of_months_to_reach_goal 2 1 36 0 =
      .success (Real.log (5/2) / Real.log 4) := by
  have l4 : (0:ℝ) < Real.log 4 := Real.log_pos (by norm_num)
  have l52 : (0:ℝ) < Real.log (5/2) := Real.log_pos (by norm_num)
  simp only [get_num_of_months_to_reach_goal]
  rw [if_neg (by norm_num : ¬ (2:ℝ) ≤ 0), if_neg (by norm_num : ¬ (1:ℝ) ≤ 0),
    if_neg (by norm_num : ¬ (36:ℝ) < 0), if_neg (by norm_num : ¬ (0:ℝ) < 0),
    if_neg (by norm_num : ¬ (0:ℝ) ≥ 1), if_neg (by norm_num : ¬ (36:ℝ)/12 = 0)]
  norm_num
  exact fun h => absurd h (not_le.2 (div_pos l52 l4))

/-- C8 counterexample: monotonicity in the rate fails.  Both calls share
contribution 2, target 1 and corpus 0 and both return SUCCESS, yet raising the
annual rate from 12 to 36 strictly increases the returned months. -/
theorem solver_rate_not_monotonic :
    get_num_of_months_to_reach_goal 2 1 12 0 =
      CalcResult.success (Real.log (3/2) / Real.log 2) ∧
    get_num_of_months_to_reach_goal 2 1 36 0 =
      CalcResult.success (Real.log (5/2) / Real.log 4) ∧
    Real.log (3/2) / Real.log 2 < Real.log (5/2) / Real.log 4 := by
  have l2 : (0:ℝ) < Real.log 2 := Real.log_pos (by norm_num)
  refine ⟨solver_eval_rate12, solver_eval_rate36, ?_⟩
  have l4 : Real.log 4 = 2 * Real.log 2 := by
    rw [show (4:ℝ) = 2^2 by norm_num, Real.log_pow]
    push_cast
    ring
  have key : 2 * Real.log (3/2) < Real.log (5/2) := by
    have h := Real.log_lt_log (by norm_num : (0:ℝ) < (3/2)^2)
      (by norm_num : ((3:ℝ)/2)^2 < 5/2)
    rw [Real.log_pow] at h
    push_cast at h
    linarith
  rw [l4, div_lt_div_iff₀ l2 (by positivity)]
  nlinarith [mul_lt_mul_of_pos_right key l2]

/-- Helper: `log (101/100) ≤ 1/100`. -/
theorem log_ratio_upper : Real.log (101/100) ≤ 1/100 := by
  have h := Real.log_le_sub_one_of_pos (by norm_num : (0:ℝ) < 101/100)
  linarith

/-- Helper: `exp (62/12500) ≤ 12500/12438`, from `1 - x ≤ exp (-x)`. -/
theorem exp_small_upper : Real.exp (62/12500) ≤ 12500/12438 := by
  have h1 := Real.add_one_le_exp (-(62/12500) : ℝ)
  rw [Real.exp_neg] at h1
  have h2 : (0:ℝ) < Real.exp (62/12500) := Real.exp_pos _
  have h3 : (12438/12500 : ℝ) ≤ (Real.exp (62/12500))⁻¹ := by linarith
  have h4 : ((Real.exp (62/12500))⁻¹)⁻¹ ≤ ((12438/12500:ℝ))⁻¹ :=
    inv_anti₀ (by norm_num) h3
  rw [inv_inv] at h4
  calc Real.exp (62/12500) ≤ ((12438/12500:ℝ))⁻¹ := h4
    _ = 12500/12438 := by norm_num

/-- Helper: `124/12500 ≤ log (101/100)` (so `log 1.01 > 0.00992`). -/
theorem log_ratio_lower : (124/12500 : ℝ) ≤ Real.log (101/100) := by
  rw [Real.le_log_iff_exp_le (by norm_num : (0:ℝ) < 101/100)]
  have hsplit : Real.exp (124/12500 : ℝ) =
      Real.exp (62/12500) * Real.exp (62/12500) := by
    rw [← Real.exp_add]
    norm_num
  rw [hsplit]
  have h2 := exp_small_upper
  have hp : (0:ℝ) < Real.exp (62/12500) := Real.exp_pos _
  have h3 : Real.exp (62/12500) * Real.exp (62/12500) ≤
      (12500/12438 : ℝ) * (12500/12438) :=
    mul_le_mul h2 h2 hp.le (by norm_num)
  have h4 : (12500/12438 : ℝ) * (12500/12438) ≤ 101/100 := by norm_num
  linarith

/-- Helper: the Scenario A call evaluates to the closed form
`log 2 / log (101/100)`. -/
theorem scenario_a_eval :
    get_num_of_months_to_reach_goal 10000 1000000 0.12 0 =
      .success (Real.log 2 / Real.log (101/100)) := by
  have lr : (0:ℝ) < Real.log (101/100) := Real.log_pos (by norm_num)
  have l2 : (0:ℝ) < Real.log 2 := Real.log_pos (by norm_num)
  simp only [get_num_of_months_to_reach_goal]
  rw [if_neg (by norm_num : ¬ (10000:ℝ) ≤ 0), if_neg (by norm_num : ¬ (1000000:ℝ) ≤ 0),
    if_neg (by norm_num : ¬ (0.12:ℝ) < 0), if_neg (by norm_num : ¬ (0:ℝ) < 0),
    if_neg (by norm_num : ¬ (0:ℝ) ≥ 1000000), if_neg (by norm_num : ¬ (0.12:ℝ)/12 = 0)]
  norm_num
  exact fun h => absurd h (not_le.2 (div_pos l2 lr))

/-- C7 counterexample: Scenario A does not return ≈ 58.3 months — the call
returns `log 2 / log (101/100)`, which exceeds 60 months. -/
theorem scenario_a_not_58_months :
    get_num_of_months_to_reach_goal 10000 1000000 0.12 0 =
      CalcResult.success (Real.log 2 / Real.log (101/100)) ∧
    (60:ℝ) < Real.log 2 / Real.log (101/100) := by
  refine ⟨scenario_a_eval, ?_⟩
  have lr : (0:ℝ) < Real.log (101/100) := Real.log_pos (by norm_num)
  have h2 := Real.log_two_gt_d9
  rw [lt_div_iff₀ lr]
  nlinarith [log_ratio_upper]

/-- C7 (amended): Scenario A returns the finite positive months value given by
the closed-form formula, `log 2 / log (101/100)` ≈ 69.7 months — strictly
between 69 and 70 (not ≈ 58.3). -/
theorem scenario_a_months :
    get_num_of_months_to_reach_goal 10000 1000000 0.12 0 =
      CalcResult.success (Real.log 2 / Real.log (101/100)) ∧
    (69:ℝ) < Real.log 2 / Real.log (101/100) ∧
    Real.log 2 / Real.log (101/100) < 70 := by
  have lr : (0:ℝ) < Real.log (101/100) := Real.log_pos (by norm_num)
  refine ⟨scenario_a_eval, ?_, ?_⟩
  · have h2 := Real.log_two_gt_d9
    rw [lt_div_iff₀ lr]
    nlinarith [log_ratio_upper]
  · have h2 := Real.log_two_lt_d9
    rw [div_lt_iff₀ lr]
    nlinarith [log_ratio_lower]

/-- Helper: on a ladder whose lines are all valid, the blender loop returns
the accumulators plus the ladder's sums. -/
theorem weighted_return_loop_ok (assets : List AssetOption)
    (l : List (String × String × ℝ)) (t w : ℝ) (d : List AllocationDetail)
    (h : ∀ x ∈ l, lineOk assets x) :
    ∃ d', weighted_return_loop assets l t w d =
      .ok (t + ladderPctSum l, w + ladderWeightedSum assets l, d') := by
  induction l generalizing t w d with
  | nil => exact ⟨d, by simp [weighted_return_loop, ladderPctSum, ladderWeightedSum]⟩
  | cons x rest ih =>
    obtain ⟨ac, asu, p⟩ := x
    obtain ⟨⟨h0, h1⟩, hlook⟩ := h (ac, asu, p) (List.mem_cons_self _ _)
    rcases hx : get_expected_cagr assets ac asu with _ | cagr
    · exact absurd hx hlook
    · obtain ⟨d2, hd2⟩ := ih (t + p) (w + p * cagr)
        (d ++ [⟨ac, asu, p * 100, cagr, p * cagr⟩])
        (fun y hy => h y (List.mem_cons_of_mem _ hy))
      refine ⟨d2, ?_⟩
      have e1 : t + ladderPctSum ((ac, asu, p) :: rest) = t + p + ladderPctSum rest := by
        simp [ladderPctSum]
        ring
      have e2 : w + ladderWeightedSum assets ((ac, asu, p) :: rest) =
          w + p * cagr + ladderWeightedSum assets rest := by
        simp [ladderWeightedSum, hx]
        ring
      rw [e1, e2]
      simp only [weighted_return_loop, hx]
      rw [if_neg (not_not_intro ⟨h0, h1⟩)]
      exact hd2

/-- Helper: a ladder containing an invalid line makes the blender loop return
an ERROR, whatever the accumulators. -/
theorem weighted_return_loop_bad (assets : List AssetOption)
    (l : List (String × String × ℝ)) (t w : ℝ) (d : List AllocationDetail)
    (h : ∃ x ∈ l, ¬ lineOk assets x) :
    ∃ m, weighted_return_loop assets l t w d = .error m := by
  induction l generalizing t w d with
  | nil => simp at h
  | cons x rest ih =>
    obtain ⟨ac, asu, p⟩ := x
    by_cases hp : 0 ≤ p ∧ p ≤ 1
    · rcases hx : get_expected_cagr assets ac asu with _ | cagr
      · refine ⟨"Asset not found", ?_⟩
        simp only [weighted_return_loop, hx]
        rw [if_neg (not_not_intro hp)]
      · have hhead : lineOk assets (ac, asu, p) := ⟨hp, by rw [hx]; simp⟩
        obtain ⟨y, hy, hbad⟩ := h
        rcases List.mem_cons.1 hy with rfl | hy'
        · exact absurd hhead hbad
        · obtain ⟨m, hm⟩ := ih (t + p) (w + p * cagr)
            (d ++ [⟨ac, asu, p * 100, cagr, p * cagr⟩]) ⟨y, hy', hbad⟩
          refine ⟨m, ?_⟩
          simp only [weighted_return_loop, hx]
          rw [if_neg (not_not_intro hp)]
          exact hm
    · refine ⟨"Allocation percentage must be between 0 and 1", ?_⟩
      simp only [weighted_return_loop]
      rw [if_pos hp]

/-- C9: blend commutativity — permuting the lines of an asset ladder changes
neither the status of `calculate_weighted_portfolio_return` nor (on success)
the blended portfolio CAGR. -/
theorem blended_return_perm_invariant (assets : List AssetOption)
    (l₁ l₂ : List (String × String × ℝ)) (hperm : l₁.Perm l₂) :
    (calculate_weighted_portfolio_return assets l₁).isError =
      (calculate_weighted_portfolio_return assets l₂).isError ∧
    (calculate_weighted_portfolio_return assets l₁).cagrOf =
      (calculate_weighted_portfolio_return assets l₂).cagrOf := by
  by_cases hall : ∀ x ∈ l₁, lineOk assets x
  · have hall₂ : ∀ x ∈ l₂, lineOk assets x := fun x hx => hall x (hperm.mem_iff.2 hx)
    obtain ⟨d₁, e₁⟩ := weighted_return_loop_ok assets l₁ 0 0 [] hall
    obtain ⟨d₂, e₂⟩ := weighted_return_loop_ok assets l₂ 0 0 [] hall₂
    have hS : ladderPctSum l₁ = ladderPctSum l₂ := by
      unfold ladderPctSum
      exact (hperm.map (fun x => x.2.2)).sum_eq
    have hW : ladderWeightedSum assets l₁ = ladderWeightedSum assets l₂ := by
      unfold ladderWeightedSum
      exact (hperm.map
        (fun x => x.2.2 * ((get_expected_cagr assets x.1 x.2.1).getD 0))).sum_eq
    simp only [calculate_weighted_portfolio_return, e₁, e₂, hS, hW]
    split_ifs <;> simp [PortfolioResult.isError, PortfolioResult.cagrOf]
  · have hbad₁ : ∃ x ∈ l₁, ¬ lineOk assets x := by push_neg at hall; exact hall
    have hbad₂ : ∃ x ∈ l₂, ¬ lineOk assets x := by
      obtain ⟨x, hx, hb⟩ := hbad₁
      exact ⟨x, hperm.mem_iff.1 hx, hb⟩
    obtain ⟨m₁, e₁⟩ := weighted_return_loop_bad assets l₁ 0 0 [] hbad₁
    obtain ⟨m₂, e₂⟩ := weighted_return_loop_bad assets l₂ 0 0 [] hbad₂
    simp [calculate_weighted_portfolio_return, e₁, e₂,
      PortfolioResult.isError, PortfolioResult.cagrOf]

/-- C9 witness: the spec's example pair — the 60/40 large-cap/small-cap ladder
and its reversal agree in status and CAGR. -/
theorem blended_return_perm_invariant_witness :
    (([("Mutual Fund", "Large Cap", (0.6:ℝ)), ("Mutual Fund", "Small Cap", 0.4)] :
        List (String × String × ℝ)).Perm
      [("Mutual Fund", "Small Cap", 0.4), ("Mutual Fund", "Large Cap", 0.6)]) ∧
    ((calculate_weighted_portfolio_return defaultAssets
        [("Mutual Fund", "Large Cap", 0.6), ("Mutual Fund", "Small Cap", 0.4)]).isError =
      (calculate_weighted_portfolio_return defaultAssets
        [("Mutual Fund", "Small Cap", 0.4), ("Mutual Fund", "Large Cap", 0.6)]).isError ∧
     (calculate_weighted_portfolio_return defaultAssets
        [("Mutual Fund", "Large Cap", 0.6), ("Mutual Fund", "Small Cap", 0.4)]).cagrOf =
      (calculate_weighted_portfolio_return defaultAssets
        [("Mutual Fund", "Small Cap", 0.4), ("Mutual Fund", "Large Cap", 0.6)]).cagrOf) :=
  ⟨List.Perm.swap _ _ _,
    blended_return_perm_invariant defaultAssets _ _ (List.Perm.swap _ _ _)⟩

/-- C6: for any goal and any non-null duration (and a positive rate, as the
claim's formula divides by `r`), the Impact Analyzer's temporary branch
computes the phase-1 corpus as `corpus*(1+r)^d` plus — only when the modified
total contribution is positive — `modified*(((1+r)^d - 1)/r)`; it reports
`new_months = d` when that corpus reaches the target, and otherwise
`d` plus the Timeline Solver's months from the phase-1 corpus under the
original total contribution. -/
theorem impact_two_phase_spec (g : Goal) (pct : ℝ) (gender : String)
    (d : ℕ) (rate : ℝ) (hr : 0 < rate) (temp phase1 : ℝ)
    (htemp : temp =
      (if gender = "male" then
        g.male_monthly_contribution * (1 + pct) + g.female_monthly_contribution
      else
        g.male_monthly_contribution + g.female_monthly_contribution * (1 + pct)))
    (hphase : phase1 =
      (if temp ≤ 0 then g.current_corpus * (1 + rate / 12) ^ d
       else g.current_corpus * (1 + rate / 12) ^ d +
         temp * (((1 + rate / 12) ^ d - 1) / (rate / 12)))) :
    corpus_after_temp_period g.current_corpus temp (rate / 12) d = phase1 ∧
    (g.target_amount ≤ phase1 →
      impact_new_months_temporary g pct gender d rate = .success (d : ℝ)) ∧
    (phase1 < g.target_amount → ∀ m,
      get_num_of_months_to_reach_goal g.total_monthly_contribution
          g.target_amount rate phase1 = .success m →
      impact_new_months_temporary g pct gender d rate = .success ((d : ℝ) + m)) := by
  have hr12 : 0 < rate / 12 := by positivity
  have hcore : corpus_after_temp_period g.current_corpus temp (rate / 12) d = phase1 := by
    rw [hphase]
    unfold corpus_after_temp_period
    by_cases ht : temp ≤ 0
    · rw [if_pos ht, if_pos ht]
    · rw [if_neg ht, if_neg ht, if_pos hr12]
  refine ⟨hcore, ?_, ?_⟩
  · intro hge
    simp only [impact_new_months_temporary, ← htemp, hcore]
    rw [if_pos hge]
  · intro hlt m hm
    simp only [impact_new_months_temporary, ← htemp, hcore]
    rw [if_neg (not_le.2 hlt), hm]

/-- C6 witness: a goal whose corpus (100) already exceeds the target (50)
yields `new_months = d` for a 0-month change window. -/
theorem impact_two_phase_spec_witness :
    (0:ℝ) < 12 ∧
    impact_new_months_temporary gReached 0 "male" 0 12 =
      CalcResult.success ((0:ℕ) : ℝ) :=
  ⟨by norm_num,
    (impact_two_phase_spec gReached 0 "male" 0 12 (by norm_num) 2 100
        (by norm_num [gReached]) (by norm_num [gReached])).2.1
      (by norm_num [gReached])⟩

/-- Helper: the post-redistribution part of the proposal call never touches
the goal store or the capacity trackers. -/
theorem ladder_timeline_core_state (s : AgentState) (goal_name : String)
    (ladder : List (String × String × ℝ)) (ta : ℝ) :
    (ladder_timeline_core s goal_name ladder ta).2.goals = s.goals ∧
    (ladder_timeline_core s goal_name ladder ta).2.male_monthly_contribution =
      s.male_monthly_contribution ∧
    (ladder_timeline_core s goal_name ladder ta).2.female_monthly_contribution =
      s.female_monthly_contribution := by
  rcases hcw : calculate_weighted_portfolio_return s.assets ladder with m | ⟨c, t, dt⟩ <;>
    simp only [ladder_timeline_core, hcw] <;>
    split_ifs <;> exact ⟨rfl, rfl, rfl⟩

/-- Helper: when the target is positive and the post-redistribution part does
not return an ERROR, it returns the state with the staged discussion recording
the current trackers and ladder. -/
theorem ladder_timeline_core_success_state (s : AgentState) (goal_name : String)
    (ladder : List (String × String × ℝ)) (ta : ℝ) (hta : 0 < ta)
    (hok : (ladder_timeline_core s goal_name ladder ta).1.isError = false) :
    (ladder_timeline_core s goal_name ladder ta).2 =
      { s with
        final_discussion :=
          some ⟨goal_name, s.male_monthly_contribution,
            s.female_monthly_contribution, ladder⟩ } := by
  rcases hcw : calculate_weighted_portfolio_return s.assets ladder with m | ⟨c, t, dt⟩ <;>
    simp only [ladder_timeline_core, hcw] at hok ⊢ <;>
    split_ifs at hok ⊢ with h1 h2 h3 <;>
    first
      | rfl
      | (exact absurd hta (not_lt.2 h3))
      | (exact absurd hok (by simp [LadderResult.isError]))

/-- Helper: with a positive target, both trackers zero and at least one
pledged goal, the proposal call runs the redistribution block and continues on
the redistributed state. -/
theorem calc_ladder_redistributes (s : AgentState) (goal_name : String)
    (ladder : List (String × String × ℝ)) (ta : ℝ)
    (hta : 0 < ta) (hm : s.male_monthly_contribution = 0)
    (hf : s.female_monthly_contribution = 0) (hk0 : pledgedCount s.goals ≠ 0) :
    calculate_months_to_reach_goal_with_asset_ladder s goal_name ladder ta =
      ladder_timeline_core (redistribute s) goal_name ladder ta := by
  unfold calculate_months_to_reach_goal_with_asset_ladder
  rw [if_neg (not_le.2 hta), if_pos ⟨hm, hf⟩, if_neg hk0]

/-- C5: whenever the redistribution block runs (positive target, both
remaining contributions zero, `k ≥ 1` pledged goals), every pledged goal's
contribution fields and per-line asset amounts are divided by `k+1`, unpledged
goals are untouched, and the remaining-capacity trackers are reset to the
pledged contribution sums divided by `k+1` — whatever the call then returns. -/
theorem redistribution_equal_share (s : AgentState) (goal_name : String)
    (ladder : List (String × String × ℝ)) (ta : ℝ)
    (hta : 0 < ta) (hm : s.male_monthly_contribution = 0)
    (hf : s.female_monthly_contribution = 0)
    (hk : 1 ≤ pledgedCount s.goals) :
    (calculate_months_to_reach_goal_with_asset_ladder s goal_name ladder ta).2.goals =
      s.goals.map (fun g =>
        if g.pledged then
          { g with
            male_monthly_contribution :=
              g.male_monthly_contribution / ((pledgedCount s.goals : ℝ) + 1)
            female_monthly_contribution :=
              g.female_monthly_contribution / ((pledgedCount s.goals : ℝ) + 1)
            total_monthly_contribution :=
              g.total_monthly_contribution / ((pledgedCount s.goals : ℝ) + 1)
            male_assets := g.male_assets.map (fun a =>
              { a with amount := a.amount / ((pledgedCount s.goals : ℝ) + 1) })
            female_assets := g.female_assets.map (fun a =>
              { a with amount := a.amount / ((pledgedCount s.goals : ℝ) + 1) }) }
        else g) ∧
    (calculate_months_to_reach_goal_with_asset_ladder s goal_name ladder
        ta).2.male_monthly_contribution =
      pledgedMaleSum s.goals / ((pledgedCount s.goals : ℝ) + 1) ∧
    (calculate_months_to_reach_goal_with_asset_ladder s goal_name ladder
        ta).2.female_monthly_contribution =
      pledgedFemaleSum s.goals / ((pledgedCount s.goals : ℝ) + 1) := by
  have hk0 : pledgedCount s.goals ≠ 0 := by omega
  rw [calc_ladder_redistributes s goal_name ladder ta hta hm hf hk0]
  obtain ⟨hg, hmm, hff⟩ :=
    ladder_timeline_core_state (redistribute s) goal_name ladder ta
  refine ⟨?_, ?_, ?_⟩
  · rw [hg]
    rfl
  · rw [hmm]
    rfl
  · rw [hff]
    rfl

/-- C5 witness: the one-pledged-goal session halves the goal's contributions
and asset amounts and sets the trackers to half the pledged sums. -/
theorem redistribution_equal_share_witness :
    (0:ℝ) < 100 ∧ exStateOne.male_monthly_contribution = 0 ∧
    exStateOne.female_monthly_contribution = 0 ∧ 1 ≤ pledgedCount exStateOne.goals ∧
    ((calculate_months_to_reach_goal_with_asset_ladder exStateOne "Trip" savingsLadder
        100).2.goals =
      exStateOne.goals.map (fun g =>
        if g.pledged then
          { g with
            male_monthly_contribution :=
              g.male_monthly_contribution / ((pledgedCount exStateOne.goals : ℝ) + 1)
            female_monthly_contribution :=
              g.female_monthly_contribution / ((pledgedCount exStateOne.goals : ℝ) + 1)
            total_monthly_contribution :=
              g.total_monthly_contribution / ((pledgedCount exStateOne.goals : ℝ) + 1)
            male_assets := g.male_assets.map (fun a =>
              { a with amount := a.amount / ((pledgedCount exStateOne.goals : ℝ) + 1) })
            female_assets := g.female_assets.map (fun a =>
              { a with amount := a.amount / ((pledgedCount exStateOne.goals : ℝ) + 1) }) }
        else g) ∧
    (calculate_months_to_reach_goal_with_asset_ladder exStateOne "Trip" savingsLadder
        100).2.male_monthly_contribution =
      pledgedMaleSum exStateOne.goals / ((pledgedCount exStateOne.goals : ℝ) + 1) ∧
    (calculate_months_to_reach_goal_with_asset_ladder exStateOne "Trip" savingsLadder
        100).2.female_monthly_contribution =
      pledgedFemaleSum exStateOne.goals / ((pledgedCount exStateOne.goals : ℝ) + 1)) :=
  ⟨by norm_num, rfl, rfl, by decide,
    redistribution_equal_share exStateOne "Trip" savingsLadder 100
      (by norm_num) rfl rfl (by decide)⟩

/-- Helper: an ERROR of the blender is some `perror`. -/
theorem portfolio_isError_elim {r : PortfolioResult} (h : r.isError = true) :
    ∃ m, r = .perror m := by
  cases r with
  | perror m => exact ⟨m, rfl⟩
  | psuccess c t d => exact absurd h (by simp [PortfolioResult.isError])

/-- C10: non-atomicity of the proposal — with both trackers zero, `k ≥ 1`
pledged goals, a positive target and a ladder that fails blender validation,
the call still divides every pledged goal by `k+1` and resets the trackers
before returning an ERROR result: the in-memory state is mutated although the
call fails. -/
theorem proposal_mutates_state_despite_invalid_ladder (s : AgentState)
    (goal_name : String) (ladder : List (String × String × ℝ)) (ta : ℝ)
    (hta : 0 < ta) (hm : s.male_monthly_contribution = 0)
    (hf : s.female_monthly_contribution = 0)
    (hk : 1 ≤ pledgedCount s.goals)
    (hbad : (calculate_weighted_portfolio_return s.assets ladder).isError = true) :
    (calculate_months_to_reach_goal_with_asset_ladder s goal_name ladder ta).1.isError
        = true ∧
    (calculate_months_to_reach_goal_with_asset_ladder s goal_name ladder ta).2.goals =
      s.goals.map (divideGoalBy ((pledgedCount s.goals : ℝ) + 1)) ∧
    (calculate_months_to_reach_goal_with_asset_ladder s goal_name ladder
        ta).2.male_monthly_contribution =
      pledgedMaleSum s.goals / ((pledgedCount s.goals : ℝ) + 1) ∧
    (calculate_months_to_reach_goal_with_asset_ladder s goal_name ladder
        ta).2.female_monthly_contribution =
      pledgedFemaleSum s.goals / ((pledgedCount s.goals : ℝ) + 1) := by
  have hk0 : pledgedCount s.goals ≠ 0 := by omega
  rw [calc_ladder_redistributes s goal_name ladder ta hta hm hf hk0]
  obtain ⟨hg, hmm, hff⟩ :=
    ladder_timeline_core_state (redistribute s) goal_name ladder ta
  refine ⟨?_, hg, hmm, hff⟩
  obtain ⟨msg, hmsg⟩ := portfolio_isError_elim hbad
  have hmsg' : calculate_weighted_portfolio_return (redistribute s).assets ladder =
      .perror msg := hmsg
  simp only [ladder_timeline_core, hmsg']
  split_ifs <;> first
    | (exfalso; linarith)
    | simp [LadderResult.isError]

/-- C10 witness: the two-pledged-goal session proposed an unknown
`("Gold", "N/A")` ladder — the call errors, yet the goals are divided by 3 and
the trackers reset. -/
theorem proposal_mutates_state_despite_invalid_ladder_witness :
    (calculate_weighted_portfolio_return exStateTwo.assets unknownLadder).isError
        = true ∧
    ((calculate_months_to_reach_goal_with_asset_ladder exStateTwo "Gold Goal"
        unknownLadder 100).1.isError = true ∧
    (calculate_months_to_reach_goal_with_asset_ladder exStateTwo "Gold Goal"
        unknownLadder 100).2.goals =
      exStateTwo.goals.map (divideGoalBy ((pledgedCount exStateTwo.goals : ℝ) + 1)) ∧
    (calculate_months_to_reach_goal_with_asset_ladder exStateTwo "Gold Goal"
        unknownLadder 100).2.male_monthly_contribution =
      pledgedMaleSum exStateTwo.goals / ((pledgedCount exStateTwo.goals : ℝ) + 1) ∧
    (calculate_months_to_reach_goal_with_asset_ladder exStateTwo "Gold Goal"
        unknownLadder 100).2.female_monthly_contribution =
      pledgedFemaleSum exStateTwo.goals / ((pledgedCount exStateTwo.goals : ℝ) + 1)) := by
  have hbad : (calculate_weighted_portfolio_return exStateTwo.assets
      unknownLadder).isError = true := by
    have hlook : get_expected_cagr defaultAssets "Gold" "N/A" = none := rfl
    have hloop : weighted_return_loop defaultAssets [("Gold", "N/A", (1:ℝ))] 0 0 [] =
        .error "Asset not found" := by
      simp only [weighted_return_loop, hlook]
      rw [if_neg (not_not_intro (by norm_num : (0:ℝ) ≤ 1 ∧ (1:ℝ) ≤ 1))]
    show (calculate_weighted_portfolio_return defaultAssets unknownLadder).isError = true
    unfold calculate_weighted_portfolio_return unknownLadder
    rw [hloop]
    rfl
  exact ⟨hbad,
    proposal_mutates_state_despite_invalid_ladder exStateTwo "Gold Goal" unknownLadder
      100 (by norm_num) rfl rfl (by decide) hbad⟩

/-- Helper: `divideGoalBy` keeps the pledged flag. -/
theorem divideGoalBy_pledged (n : ℝ) (g : Goal) :
    (divideGoalBy n g).pledged = g.pledged := by
  unfold divideGoalBy
  split_ifs <;> rfl

/-- Helper: on a pledged goal `divideGoalBy` divides the stored total. -/
theorem divideGoalBy_total (n : ℝ) (g : Goal) (h : g.pledged = true) :
    (divideGoalBy n g).total_monthly_contribution =
      g.total_monthly_contribution / n := by
  unfold divideGoalBy
  rw [if_pos h]

/-- Helper: appending a pledged goal adds its total to the pledged sum. -/
theorem pledgedTotalSum_append_pledged (l : List Goal) (g : Goal)
    (h : g.pledged = true) :
    pledgedTotalSum (l ++ [g]) = pledgedTotalSum l + g.total_monthly_contribution := by
  unfold pledgedTotalSum
  rw [List.filter_append, List.map_append, List.sum_append]
  simp [List.filter_cons, h]

/-- Helper: dividing every goal record divides the pledged total sum. -/
theorem pledgedTotalSum_map_divide (gs : List Goal) (n : ℝ) :
    pledgedTotalSum (gs.map (divideGoalBy n)) = pledgedTotalSum gs / n := by
  induction gs with
  | nil => simp [pledgedTotalSum]
  | cons g rest ih =>
    simp only [List.map_cons, pledgedTotalSum, List.filter_cons,
      divideGoalBy_pledged] at ih ⊢
    by_cases hp : g.pledged = true
    · rw [if_pos hp, if_pos hp]
      simp only [List.map_cons, List.sum_cons]
      rw [divideGoalBy_total n g hp, ih, add_div]
    · rw [if_neg hp, if_neg hp]
      exact ih

/-- Helper: under the data-model invariant `total = male + female` on pledged
goals, the pledged total sum splits into the pledged per-contributor sums. -/
theorem pledgedTotalSum_eq_male_add_female (gs : List Goal)
    (hinv : ∀ g ∈ gs, g.pledged = true →
      g.total_monthly_contribution =
        g.male_monthly_contribution + g.female_monthly_contribution) :
    pledgedTotalSum gs = pledgedMaleSum gs + pledgedFemaleSum gs := by
  induction gs with
  | nil => simp [pledgedTotalSum, pledgedMaleSum, pledgedFemaleSum]
  | cons g rest ih =>
    have ih' := ih (fun x hx hp => hinv x (List.mem_cons_of_mem _ hx) hp)
    simp only [pledgedTotalSum, pledgedMaleSum, pledgedFemaleSum,
      List.filter_cons] at ih' ⊢
    by_cases hp : g.pledged = true
    · rw [if_pos hp]
      simp only [List.map_cons, List.sum_cons]
      rw [hinv g (List.mem_cons_self _ _) hp, ih']
      ring
    · rw [if_neg hp]
      exact ih'

/-- Helper: a non-ERROR proposal on a fully-pledged state returns the
redistributed state carrying the staged discussion with the freed trackers. -/
theorem calc_ladder_success_state (s : AgentState) (goal_name : String)
    (ladder : List (String × String × ℝ)) (ta : ℝ)
    (hta : 0 < ta) (hm : s.male_monthly_contribution = 0)
    (hf : s.female_monthly_contribution = 0) (hk0 : pledgedCount s.goals ≠ 0)
    (hok : (calculate_months_to_reach_goal_with_asset_ladder s goal_name ladder
      ta).1.isError = false) :
    (calculate_months_to_reach_goal_with_asset_ladder s goal_name ladder ta).2 =
      { redistribute s with
        final_discussion :=
          some ⟨goal_name, pledgedMaleSum s.goals / ((pledgedCount s.goals : ℝ) + 1),
            pledgedFemaleSum s.goals / ((pledgedCount s.goals : ℝ) + 1), ladder⟩ } := by
  rw [calc_ladder_redistributes s goal_name ladder ta hta hm hf hk0] at hok ⊢
  exact ladder_timeline_core_success_state (redistribute s) goal_name ladder ta hta hok

/-- Helper: committing with a staged discussion appends one pledged goal whose
total contribution is the staged male + female contributions. -/
theorem create_goal_appends (s : AgentState) (fd : StagedDiscussion) (ta' : ℝ)
    (h : s.final_discussion = some fd) :
    ∃ g' : Goal, (create_goal s ta').2.goals = s.goals ++ [g'] ∧
      g'.total_monthly_contribution =
        fd.male_monthly_contribution + fd.female_monthly_contribution ∧
      g'.pledged = true := by
  unfold create_goal
  rw [h]
  exact ⟨_, rfl, rfl, rfl⟩

/-- Helper: the redistributed-then-computed timeline succeeds (no ERROR) when
the blender succeeds with a positive CAGR and the trackers are positive. -/
theorem ladder_timeline_core_ok (s : AgentState) (goal_name : String)
    (ladder : List (String × String × ℝ)) (ta cagr tot : ℝ)
    (det : List AllocationDetail) (hta : 0 < ta)
    (htot : 0 < s.male_monthly_contribution + s.female_monthly_contribution)
    (hcw : calculate_weighted_portfolio_return s.assets ladder =
      .psuccess cagr tot det)
    (hcagr : 0 < cagr) :
    (ladder_timeline_core s goal_name ladder ta).1.isError = false := by
  have hr : 0 < cagr / 100 / 12 := by positivity
  have hden : 0 < 0 * (cagr / 100 / 12) +
      (s.male_monthly_contribution + s.female_monthly_contribution) := by
    rw [zero_mul, zero_add]
    exact htot
  have hnum : 0 < ta * (cagr / 100 / 12) +
      (s.male_monthly_contribution + s.female_monthly_contribution) := by positivity
  have hlog1r : 0 < Real.log (1 + cagr / 100 / 12) := Real.log_pos (by linarith)
  have hratio : 1 < (ta * (cagr / 100 / 12) +
        (s.male_monthly_contribution + s.female_monthly_contribution)) /
      (0 * (cagr / 100 / 12) +
        (s.male_monthly_contribution + s.female_monthly_contribution)) := by
    rw [one_lt_div hden]
    nlinarith [mul_pos hta hr]
  have hval : ¬ ((ta * (cagr / 100 / 12) +
        (s.male_monthly_contribution + s.female_monthly_contribution)) /
      (0 * (cagr / 100 / 12) +
        (s.male_monthly_contribution + s.female_monthly_contribution)) ≤ 0 ∨
      Real.log (1 + cagr / 100 / 12) = 0) := by
    push_neg
    exact ⟨div_pos hnum hden, ne_of_gt hlog1r⟩
  have hmonths : 0 < Real.log ((ta * (cagr / 100 / 12) +
        (s.male_monthly_contribution + s.female_monthly_contribution)) /
      (0 * (cagr / 100 / 12) +
        (s.male_monthly_contribution + s.female_monthly_contribution))) /
      Real.log (1 + cagr / 100 / 12) :=
    div_pos (Real.log_pos hratio) hlog1r
  unfold ladder_timeline_core
  rw [if_neg (not_le.2 htot), if_neg (by norm_num : ¬ (0:ℝ) < 0),
    if_neg (not_le.2 hta)]
  simp only [hcw]
  rw [if_neg (ne_of_gt hr), if_neg (not_le.2 hden), if_neg hval,
    if_neg (not_le.2 hmonths)]
  rfl

/-- Helper: the whole proposal call on a fully-pledged state succeeds under
the same conditions. -/
theorem calc_ladder_redistributed_ok (s : AgentState) (goal_name : String)
    (ladder : List (String × String × ℝ)) (ta cagr tot : ℝ)
    (det : List AllocationDetail) (hta : 0 < ta)
    (hm : s.male_monthly_contribution = 0) (hf : s.female_monthly_contribution = 0)
    (hk0 : pledgedCount s.goals ≠ 0)
    (htot : 0 < pledgedMaleSum s.goals / ((pledgedCount s.goals : ℝ) + 1) +
      pledgedFemaleSum s.goals / ((pledgedCount s.goals : ℝ) + 1))
    (hcw : calculate_weighted_portfolio_return s.assets ladder =
      .psuccess cagr tot det)
    (hcagr : 0 < cagr) :
    (calculate_months_to_reach_goal_with_asset_ladder s goal_name ladder
      ta).1.isError = false := by
  rw [calc_ladder_redistributes s goal_name ladder ta hta hm hf hk0]
  exact ladder_timeline_core_ok (redistribute s) goal_name ladder ta cagr tot det
    hta htot hcw hcagr

/-- Helper: the blender on the all-savings ladder returns CAGR 3.5 with full
allocation. -/
theorem cwpr_savings_eval :
    calculate_weighted_portfolio_return defaultAssets savingsLadder =
      .psuccess 3.5 1 [⟨"Savings Account", "N/A", 100, 3.5, 3.5⟩] := by
  have hlook : get_expected_cagr defaultAssets "Savings Account" "N/A" = some 3.5 := rfl
  have hloop : weighted_return_loop defaultAssets [("Savings Account", "N/A", (1:ℝ))]
      0 0 [] =
      .ok (0 + 1, 0 + 1 * 3.5, [] ++ [⟨"Savings Account", "N/A", 1 * 100, 3.5, 1 * 3.5⟩]) := by
    simp only [weighted_return_loop, hlook]
    rw [if_neg (not_not_intro (by norm_num : (0:ℝ) ≤ 1 ∧ (1:ℝ) ≤ 1))]
  unfold calculate_weighted_portfolio_return savingsLadder
  simp only [hloop]
  rw [if_neg (by norm_num : ¬ (0.001:ℝ) < |0 + 1 - 1|)]
  norm_num

/-- C1 (amended): starting from a state whose `k ≥ 1` pledged goals fully
consume the pool (both trackers zero; pool total = pledged total sum under the
`total = male + female` invariant), staging a new goal and committing it
leaves each pre-existing pledged goal's `total_monthly_contribution` at
exactly its old value divided by `k+1` — but the sum of all pledged goals'
totals is `2/(k+1)` times the pool total (equal to the pool total only when
`k = 1`), not the pool total in general. -/
theorem staged_commit_contribution_sums (s : AgentState) (goal_name : String)
    (ladder : List (String × String × ℝ)) (ta ta' : ℝ) (s₂ : AgentState)
    (hm : s.male_monthly_contribution = 0) (hf : s.female_monthly_contribution = 0)
    (hk : 1 ≤ pledgedCount s.goals)
    (hinv : ∀ g ∈ s.goals, g.pledged = true →
      g.total_monthly_contribution =
        g.male_monthly_contribution + g.female_monthly_contribution)
    (hta : 0 < ta)
    (hok : (calculate_months_to_reach_goal_with_asset_ladder s goal_name ladder
      ta).1.isError = false)
    (hs₂ : s₂ = (create_goal
      (calculate_months_to_reach_goal_with_asset_ladder s goal_name ladder ta).2
        ta').2) :
    (s₂.goals.take s.goals.length).map (fun g => g.total_monthly_contribution) =
      s.goals.map (fun g =>
        if g.pledged then
          g.total_monthly_contribution / ((pledgedCount s.goals : ℝ) + 1)
        else g.total_monthly_contribution) ∧
    pledgedTotalSum s₂.goals =
      2 * pledgedTotalSum s.goals / ((pledgedCount s.goals : ℝ) + 1) := by
  have hk0 : pledgedCount s.goals ≠ 0 := by omega
  have hstate := calc_ladder_success_state s goal_name ladder ta hta hm hf hk0 hok
  have hfd : (calculate_months_to_reach_goal_with_asset_ladder s goal_name ladder
      ta).2.final_discussion =
      some ⟨goal_name, pledgedMaleSum s.goals / ((pledgedCount s.goals : ℝ) + 1),
        pledgedFemaleSum s.goals / ((pledgedCount s.goals : ℝ) + 1), ladder⟩ := by
    rw [hstate]
  have hgoals₁ : (calculate_months_to_reach_goal_with_asset_ladder s goal_name ladder
      ta).2.goals = s.goals.map (divideGoalBy ((pledgedCount s.goals : ℝ) + 1)) := by
    rw [hstate]
    rfl
  obtain ⟨g', hg', htot', hpl'⟩ := create_goal_appends _ _ ta' hfd
  rw [hs₂]
  constructor
  · rw [hg', hgoals₁]
    have hlen : s.goals.length =
        (s.goals.map (divideGoalBy ((pledgedCount s.goals : ℝ) + 1))).length :=
      (List.length_map _ _).symm
    rw [hlen, List.take_left, List.map_map]
    apply List.map_congr_left
    intro g hg
    simp only [Function.comp]
    by_cases hp : g.pledged = true
    · rw [divideGoalBy_total _ g hp, if_pos hp]
    · unfold divideGoalBy
      rw [if_neg hp, if_neg hp]
  · rw [hg', pledgedTotalSum_append_pledged _ _ hpl', hgoals₁,
      pledgedTotalSum_map_divide, htot', pledgedTotalSum_eq_male_add_female s.goals hinv]
    ring

/-- C1 witness: the one-pledged-goal session (Scenario C shape, `k = 1`):
after staging and committing a second goal the old goal's total is halved and
the pledged totals sum to `2/2 = 1` times the pool. -/
theorem staged_commit_contribution_sums_witness :
    exStateOne.male_monthly_contribution = 0 ∧ 1 ≤ pledgedCount exStateOne.goals ∧
    ((((create_goal (calculate_months_to_reach_goal_with_asset_ladder exStateOne "Home"
          savingsLadder 100).2 100).2).goals.take exStateOne.goals.length).map
        (fun g => g.total_monthly_contribution) =
      exStateOne.goals.map (fun g =>
        if g.pledged then
          g.total_monthly_contribution / ((pledgedCount exStateOne.goals : ℝ) + 1)
        else g.total_monthly_contribution) ∧
    pledgedTotalSum ((create_goal (calculate_months_to_reach_goal_with_asset_ladder
        exStateOne "Home" savingsLadder 100).2 100).2).goals =
      2 * pledgedTotalSum exStateOne.goals / ((pledgedCount exStateOne.goals : ℝ) + 1)) := by
  have htotpos : 0 < pledgedMaleSum exStateOne.goals /
        ((pledgedCount exStateOne.goals : ℝ) + 1) +
      pledgedFemaleSum exStateOne.goals / ((pledgedCount exStateOne.goals : ℝ) + 1) := by
    norm_num [pledgedMaleSum, pledgedFemaleSum, pledgedCount, exStateOne, gEx,
      List.filter_cons]
  have hok : (calculate_months_to_reach_goal_with_asset_ladder exStateOne "Home"
      savingsLadder 100).1.isError = false :=
    calc_ladder_redistributed_ok exStateOne "Home" savingsLadder 100 3.5 1 _
      (by norm_num) rfl rfl (by decide) htotpos cwpr_savings_eval (by norm_num)
  have hinv : ∀ g ∈ exStateOne.goals, g.pledged = true →
      g.total_monthly_contribution =
        g.male_monthly_contribution + g.female_monthly_contribution := by
    intro g hg _
    have : g = gEx "Goal A" := by simpa [exStateOne] using hg
    rw [this]
    norm_num [gEx]
  exact ⟨rfl, by decide,
    staged_commit_contribution_sums exStateOne "Home" savingsLadder 100 100 _
      rfl rfl (by decide) hinv (by norm_num) hok rfl⟩

/-- C1 counterexample: with `k = 2` pledged goals fully consuming a pool of 4,
staging and committing a third goal succeeds but the pledged totals afterwards
sum to `8/3 ≠ 4`: redistribution does not conserve the pool total. -/
theorem conservation_fails_with_two_pledged_goals :
    exStateTwo.male_monthly_contribution = 0 ∧
    exStateTwo.female_monthly_contribution = 0 ∧
    pledgedCount exStateTwo.goals = 2 ∧
    (calculate_months_to_reach_goal_with_asset_ladder exStateTwo "Goal C"
        savingsLadder 100).1.isError = false ∧
    pledgedTotalSum exStateTwo.goals = 4 ∧
    pledgedTotalSum ((create_goal (calculate_months_to_reach_goal_with_asset_ladder
        exStateTwo "Goal C" savingsLadder 100).2 100).2).goals = 8/3 ∧
    pledgedTotalSum ((create_goal (calculate_months_to_reach_goal_with_asset_ladder
        exStateTwo "Goal C" savingsLadder 100).2 100).2).goals ≠
      pledgedTotalSum exStateTwo.goals := by
  have hcnt : pledgedCount exStateTwo.goals = 2 := rfl
  have hP : pledgedTotalSum exStateTwo.goals = 4 := by
    norm_num [pledgedTotalSum, exStateTwo, gEx, List.filter_cons]
  have hM : pledgedMaleSum exStateTwo.goals = 2 := by
    norm_num [pledgedMaleSum, exStateTwo, gEx, List.filter_cons]
  have hF : pledgedFemaleSum exStateTwo.goals = 2 := by
    norm_num [pledgedFemaleSum, exStateTwo, gEx, List.filter_cons]
  have htotpos : 0 < pledgedMaleSum exStateTwo.goals /
        ((pledgedCount exStateTwo.goals : ℝ) + 1) +
      pledgedFemaleSum exStateTwo.goals / ((pledgedCount exStateTwo.goals : ℝ) + 1) := by
    rw [hM, hF, hcnt]
    norm_num
  have hok : (calculate_months_to_reach_goal_with_asset_ladder exStateTwo "Goal C"
      savingsLadder 100).1.isError = false :=
    calc_ladder_redistributed_ok exStateTwo "Goal C" savingsLadder 100 3.5 1 _
      (by norm_num) rfl rfl (by decide) htotpos cwpr_savings_eval (by norm_num)
  have hstate := calc_ladder_success_state exStateTwo "Goal C" savingsLadder 100
    (by norm_num) rfl rfl (by decide) hok
  have hfd : (calculate_months_to_reach_goal_with_asset_ladder exStateTwo "Goal C"
      savingsLadder 100).2.final_discussion =
      some ⟨"Goal C", pledgedMaleSum exStateTwo.goals /
          ((pledgedCount exStateTwo.goals : ℝ) + 1),
        pledgedFemaleSum exStateTwo.goals / ((pledgedCount exStateTwo.goals : ℝ) + 1),
        savingsLadder⟩ := by
    rw [hstate]
  have hgoals₁ : (calculate_months_to_reach_goal_with_asset_ladder exStateTwo "Goal C"
      savingsLadder 100).2.goals =
      exStateTwo.goals.map (divideGoalBy ((pledgedCount exStateTwo.goals : ℝ) + 1)) := by
    rw [hstate]
    rfl
  obtain ⟨g', hg', htot', hpl'⟩ := create_goal_appends _ _ 100 hfd
  have hsum : pledgedTotalSum ((create_goal
      (calculate_months_to_reach_goal_with_asset_ladder exStateTwo "Goal C"
        savingsLadder 100).2 100).2).goals = 8/3 := by
    rw [hg', pledgedTotalSum_append_pledged _ _ hpl', hgoals₁,
      pledgedTotalSum_map_divide, htot', hP, hM, hF, hcnt]
    norm_num
  refine ⟨rfl, rfl, hcnt, hok, hP, hsum, ?_⟩
  rw [hsum, hP]
  norm_num

end GoalEngine
